import Mathlib

/-!
Verification of the reasoning-length-enforcing decode controller of the
optillm thinkdeeper module, against its two source variants:

* `src/optillm/thinkdeeper.py` — the simulated (string/word based) variant,
  embedded in namespace `Thinkdeeper`;
* `src/optillm/plugins/thinkdeeper_plugin.py` — the token-id variant,
  embedded in namespace `ThinkdeeperPlugin`.

Randomness (`random.random()`, `random.choice`) is modelled by an oracle
`Nat → Draw` that supplies, for each loop iteration, all random values that
iteration may consume.  The model/backend of the plugin variant is modelled
by an oracle `Nat → PDraw` supplying the sampled next token per iteration.
Python's unbounded `while True` loops are embedded as fuel-indexed loops
returning `Option`; `none` means "still running after `fuel` iterations"
(for the simulated variant a sufficient fuel is proved below, so the
embedding is total on every actual run).
-/

namespace Thinkdeeper

/-- Message model: a Python dict of strings (`{"role": ..., "content": ...}`)
is an association list. -/
def Msg : Type := List (String × String)

/-- Session configuration of the simulated variant, fields as in
`DEFAULT_CONFIG` of `src/optillm/thinkdeeper.py` lines 9-20. -/
structure SimConfig where
  min_thinking_tokens : Nat
  max_thinking_tokens : Nat
  max_thoughts : Nat
  prefill : String
  start_think_token : String
  end_think_token : String
  thought_switch_tokens : List String
deriving DecidableEq, Repr

/-- Default configuration, `src/optillm/thinkdeeper.py` lines 9-20. -/
def DEFAULT_CONFIG : SimConfig :=
  ⟨1024, 4196, 64, "", "<think>", "</think>", ["Wait,", "Alternatively,"]⟩

/-- Random draws one loop iteration of `reasoning_effort` may consume
(`src/optillm/thinkdeeper.py` lines 72-84): `switchDraw` models
`random.random() < 0.3`, the three indices model the `random.choice` calls,
and `endDraw` models `random.random() < 0.1`. -/
structure Draw where
  switchDraw : Bool
  switchIdx : Nat
  vocabIdx : Nat
  fillerIdx : Nat
  endDraw : Bool
deriving DecidableEq, Repr

/-- Model of `random.choice(l)`: the oracle supplies an arbitrary natural
index, reduced modulo the list length.  (On an empty list Python raises;
the embedding returns `""`, and every in-loop use is on a list that is
non-empty in any run that got past `__init__`.) -/
def choice (l : List String) (i : Nat) : String := l.getD (i % l.length) ""

/-- Simulated response vocabulary, `src/optillm/thinkdeeper.py` lines 52-55. -/
def response_vocabulary : List String :=
  ["Let’s consider", "This means", "So,", "Therefore,",
   "If we think about it,", "The next step is", "That leads to"]

/-- Filler words of the reasoning-step template, line 79. -/
def fillers : List String := ["this", "that", "the issue"]

/-- Reasoning step string built at line 79:
`f"{random.choice(response_vocabulary)} {random.choice(['this','that','the issue'])}."`. -/
def mkStep (vi fi : Nat) : String :=
  choice response_vocabulary vi ++ " " ++ choice fillers fi ++ "."

/-- Python `len(s.split())` at line 81, modelled at the character level:
the number of pieces of `s` split at `' '`.  The step strings this is
applied to contain single spaces and no other whitespace, so splitting at
`' '` coincides with Python `str.split()`. -/
def wordCount (s : String) : Nat := (s.toList.splitOn ' ').length

/-- All 21 step strings `mkStep` can produce. -/
def stepStrings : List String :=
  (response_vocabulary.map (fun v => fillers.map (fun f => v ++ " " ++ f ++ "."))).flatten

/-- Mutable decode state of one `reasoning_effort` run
(`src/optillm/thinkdeeper.py` lines 46, 57-58; `thought_count` lives on the
processor object and starts at 0 for a fresh processor). -/
structure SimState where
  current_text : List String
  n_thinking_steps : Nat
  thought_count : Nat
  seen_end_think : Bool
deriving DecidableEq, Repr

/-- Lines 71-81: choose a thought switch or generate a reasoning step.
A thought switch appends the chosen phrase and increments `thought_count`
only; a reasoning step appends the step and adds its word count to
`n_thinking_steps`. -/
def simBranch (cfg : SimConfig) (d : Draw) (st : SimState) : SimState :=
  if st.seen_end_think = false ∧ (d.switchDraw = true ∨ st.n_thinking_steps = 0) then
    { st with
      current_text := st.current_text ++ [choice cfg.thought_switch_tokens d.switchIdx],
      thought_count := st.thought_count + 1 }
  else
    { st with
      current_text := st.current_text ++ [mkStep d.vocabIdx d.fillerIdx],
      n_thinking_steps := st.n_thinking_steps + wordCount (mkStep d.vocabIdx d.fillerIdx) }

/-- Lines 83-87: the natural end condition, checked after either branch.
`Sum.inr` is a `break` out of the loop, `Sum.inl` continues. -/
def simAfterBranch (cfg : SimConfig) (d : Draw) (st1 : SimState) : SimState ⊕ SimState :=
  if cfg.min_thinking_tokens ≤ st1.n_thinking_steps ∧ d.endDraw = true ∧
      st1.seen_end_think = false then
    Sum.inr { st1 with
      current_text := st1.current_text ++ [cfg.end_think_token],
      seen_end_think := true }
  else
    Sum.inl st1

/-- One iteration of the `while True` loop, lines 60-87.  The force-end
check (lines 62-69) runs first; otherwise the branch choice and the
natural-end check follow. -/
def simIter (cfg : SimConfig) (d : Draw) (st : SimState) : SimState ⊕ SimState :=
  if (cfg.max_thinking_tokens ≤ st.n_thinking_steps ∨ cfg.max_thoughts ≤ st.thought_count)
      ∧ st.seen_end_think = false then
    Sum.inr { st with
      current_text := st.current_text ++ [cfg.end_think_token],
      seen_end_think := true }
  else
    simAfterBranch cfg d (simBranch cfg d st)

/-- The `while True` loop of lines 60-87 as a fuel-indexed iteration;
`none` means the loop has not exited after `fuel` iterations. -/
def simLoop (cfg : SimConfig) (oracle : Nat → Draw) : Nat → Nat → SimState → Option SimState
  | 0, _, _ => none
  | fuel+1, i, st =>
    match simIter cfg (oracle i) st with
    | Sum.inr stop => some stop
    | Sum.inl next => simLoop cfg oracle fuel (i+1) next

/-- Fuel that suffices for every oracle behavior (proved in
`simLoop_isSome_of_fuel` below): a function of `max_thinking_tokens` and
`max_thoughts` only. -/
def simFuel (cfg : SimConfig) : Nat := cfg.max_thinking_tokens + cfg.max_thoughts + 1

/-- Prompt extraction of line 49:
`messages[-1]["content"] if messages and "content" in messages[-1] else ""`. -/
def extractPrompt (messages : List Msg) : String :=
  match messages.getLast? with
  | some m =>
    match m.lookup "content" with
    | some c => c
    | none => ""
  | none => ""

/-- Body of `reasoning_effort` (lines 43-91) up to (and including) the
post-loop fallback append of lines 89-90, returning the final decode state.
`tc0` is the processor's `thought_count` at entry (0 for a freshly
constructed processor). -/
def reasoning_effortState (cfg : SimConfig) (messages : List Msg) (tc0 : Nat)
    (oracle : Nat → Draw) : Option SimState :=
  let _prompt := extractPrompt messages
  let init : SimState :=
    ⟨[cfg.start_think_token ++ "\n" ++ cfg.prefill], 0, tc0, false⟩
  (simLoop cfg oracle (simFuel cfg) 0 init).map fun st =>
    if st.seen_end_think then st
    else { st with current_text := st.current_text ++ [cfg.end_think_token] }

/-- Full `reasoning_effort` (lines 43-94): the final state's buffer joined
by `" ".join(...)` and stripped. -/
def reasoning_effort (cfg : SimConfig) (messages : List Msg) (tc0 : Nat)
    (oracle : Nat → Draw) : Option String :=
  (reasoning_effortState cfg messages tc0 oracle).map fun st =>
    (String.intercalate " " st.current_text).trim

/-- Partial request configuration: any subset of the recognized keys may be
present (`thinkdeeper_decode`, lines 106-110). -/
structure SimOptions where
  min_thinking_tokens : Option Nat
  max_thinking_tokens : Option Nat
  max_thoughts : Option Nat
  prefill : Option String
  start_think_token : Option String
  end_think_token : Option String
  thought_switch_tokens : Option (List String)
deriving DecidableEq, Repr

/-- A request configuration providing no keys. -/
def SimOptions.empty : SimOptions := ⟨none, none, none, none, none, none, none⟩

/-- Config resolution of `thinkdeeper_decode` lines 106-110 (and of the
`{**DEFAULT_CONFIG, **config}` merge in `__init__`, line 25): recognized
keys override defaults. -/
def mergeConfig (req : SimOptions) : SimConfig :=
  ⟨req.min_thinking_tokens.getD DEFAULT_CONFIG.min_thinking_tokens,
   req.max_thinking_tokens.getD DEFAULT_CONFIG.max_thinking_tokens,
   req.max_thoughts.getD DEFAULT_CONFIG.max_thoughts,
   req.prefill.getD DEFAULT_CONFIG.prefill,
   req.start_think_token.getD DEFAULT_CONFIG.start_think_token,
   req.end_think_token.getD DEFAULT_CONFIG.end_think_token,
   req.thought_switch_tokens.getD DEFAULT_CONFIG.thought_switch_tokens⟩

/-- `ThinkDeeperProcessor.__init__` (lines 23-33).  The only computation
that can raise is `max(len(t.split()) for t in self.thought_switch_tokens)`
at line 31, which raises `ValueError` exactly when the thought-switch list
is empty.  No bound or replacement-set validation is performed. -/
def processorInit (config : SimConfig) : Except String SimConfig :=
  if config.thought_switch_tokens.isEmpty then
    Except.error "max() arg is an empty sequence"
  else
    Except.ok config

/-- `thinkdeeper_decode` (lines 96-121): merge the request config over the
defaults, construct the processor, run `reasoning_effort` on
`messages or []`, and re-raise any exception (`except ... raise`). -/
def thinkdeeper_decode (messages : Option (List Msg)) (request_config : Option SimOptions)
    (oracle : Nat → Draw) : Except String String :=
  let config := mergeConfig (request_config.getD SimOptions.empty)
  match processorInit config with
  | Except.error e => Except.error e
  | Except.ok cfg =>
    match reasoning_effort cfg (messages.getD []) 0 oracle with
    | some s => Except.ok s
    | none => Except.error "loop did not exit within the modelled fuel"

end Thinkdeeper

namespace ThinkdeeperPlugin

/-- Session configuration of the token-id variant, fields as in
`DEFAULT_CONFIG` of `src/optillm/plugins/thinkdeeper_plugin.py` lines 15-21.
There is no maximum bound of any kind. -/
structure PluginConfig where
  replacements : List String
  min_thinking_tokens : Nat
  prefill : String
  start_think_token : String
  end_think_token : String
deriving DecidableEq, Repr

/-- Default configuration, lines 15-21. -/
def pluginDefaultConfig : PluginConfig :=
  ⟨["\nWait, but", "\nHmm", "\nSo"], 128, "", "<think>", "</think>"⟩

/-- External tokenizer collaborator: `tokenizer.encode` and
`tokenizer.decode` restricted to how the controller uses them
(`decode` is only ever applied to a single token id). -/
structure Tokenizer where
  encode : String → List Nat
  decode : Nat → String

/-- Per-iteration draws of the token-id loop: the sampled next token
(`torch.multinomial`, lines 76-78) and the index of the
`random.choice(self.config["replacements"])` call at line 96. -/
structure PDraw where
  next_token : Nat
  replIdx : Nat
deriving DecidableEq, Repr

/-- Mutable decode state of one plugin `reasoning_effort` run, lines 70-72. -/
structure PState where
  n_thinking_tokens : Nat
  seen_end_think : Bool
  response_chunks : List String
deriving DecidableEq, Repr

/-- The three arms of the `if`/`elif`/`else` at lines 92-111. -/
inductive PBranch where
  | replace
  | halt
  | content
deriving DecidableEq, Repr

/-- Lines 84-87: `seen_end_think` is updated to `True` on ANY sighting of the
end-think token, before the branch conditions are evaluated. -/
def pluginSeen (endId : Nat) (st : PState) (nt : Nat) : Bool :=
  if nt = endId then true else st.seen_end_think

/-- Branch selection of lines 92-107, evaluated after the `seen_end_think`
update of lines 84-87:
`if (next in (end, eos) and n < min) or (next == eos and not seen)` →
replace; `elif next == eos and seen` → halt; `else` → content. -/
def pluginBranch (cfg : PluginConfig) (eosId endId : Nat) (st : PState) (nt : Nat) : PBranch :=
  if ((nt = endId ∨ nt = eosId) ∧ st.n_thinking_tokens < cfg.min_thinking_tokens)
      ∨ (nt = eosId ∧ pluginSeen endId st nt = false) then
    PBranch.replace
  else if nt = eosId ∧ pluginSeen endId st nt = true then
    PBranch.halt
  else
    PBranch.content

/-- One iteration of the `while True` loop, lines 74-111.  `Sum.inr` is the
`break` at line 105, `Sum.inl` continues the loop. -/
def pluginIter (cfg : PluginConfig) (tok : Tokenizer) (eosId endId : Nat)
    (d : PDraw) (st : PState) : PState ⊕ PState :=
  match pluginBranch cfg eosId endId st d.next_token with
  | PBranch.replace =>
    Sum.inl ⟨st.n_thinking_tokens +
        (tok.encode (Thinkdeeper.choice cfg.replacements d.replIdx)).length,
      pluginSeen endId st d.next_token,
      st.response_chunks ++ [Thinkdeeper.choice cfg.replacements d.replIdx]⟩
  | PBranch.halt =>
    Sum.inr ⟨st.n_thinking_tokens, pluginSeen endId st d.next_token, st.response_chunks⟩
  | PBranch.content =>
    Sum.inl ⟨st.n_thinking_tokens + 1,
      pluginSeen endId st d.next_token,
      st.response_chunks ++ [tok.decode d.next_token]⟩

/-- The `while True` loop of lines 74-111 as a fuel-indexed iteration;
`none` means the loop has not exited after `fuel` iterations.  Unlike the
simulated variant, no fuel is sufficient for every oracle: the loop has no
maximum bound. -/
def pluginLoop (cfg : PluginConfig) (tok : Tokenizer) (eosId endId : Nat)
    (oracle : Nat → PDraw) : Nat → Nat → PState → Option PState
  | 0, _, _ => none
  | fuel+1, i, st =>
    match pluginIter cfg tok eosId endId (oracle i) st with
    | Sum.inr stop => some stop
    | Sum.inl next => pluginLoop cfg tok eosId endId oracle fuel (i+1) next

/-- Plugin `reasoning_effort` (lines 39-118): run the loop from the empty
chunk list, join the chunks and slice off the first
`len(template_prefix_text)` characters (lines 113-115).
`templatePrefixText` is the decoded user-side chat template computed by the
external tokenizer collaborator at lines 60-67. -/
def reasoning_effort (cfg : PluginConfig) (tok : Tokenizer) (eosId endId : Nat)
    (oracle : Nat → PDraw) (fuel : Nat) (templatePrefixText : String) : Option String :=
  let prefixLen := templatePrefixText.length
  (pluginLoop cfg tok eosId endId oracle fuel 0 ⟨0, false, []⟩).map fun st =>
    (String.join st.response_chunks).drop prefixLen

/-- The loop with a fallible backend: the oracle may raise (model/backend
fault) at any iteration, which propagates out of the loop with the partial
`response_chunks` discarded. -/
def pluginLoopE (cfg : PluginConfig) (tok : Tokenizer) (eosId endId : Nat)
    (oracle : Nat → Except String PDraw) : Nat → Nat → PState → Option (Except String PState)
  | 0, _, _ => none
  | fuel+1, i, st =>
    match oracle i with
    | Except.error e => some (Except.error e)
    | Except.ok d =>
      match pluginIter cfg tok eosId endId d st with
      | Sum.inr stop => some (Except.ok stop)
      | Sum.inl next => pluginLoopE cfg tok eosId endId oracle fuel (i+1) next

/-- Plugin `reasoning_effort` over a fallible backend. -/
def reasoning_effortE (cfg : PluginConfig) (tok : Tokenizer) (eosId endId : Nat)
    (oracle : Nat → Except String PDraw) (fuel : Nat) (templatePrefixText : String) :
    Option (Except String String) :=
  let prefixLen := templatePrefixText.length
  (pluginLoopE cfg tok eosId endId oracle fuel 0 ⟨0, false, []⟩).map fun r =>
    r.map fun st => (String.join st.response_chunks).drop prefixLen

/-- `ThinkDeeperProcessor.__init__` of the plugin (lines 26-35):
`tokens = tokenizer.encode(start + end)`, then `tokens[1]` and `tokens[2]`
are taken as the start/end think token ids; an `IndexError` is raised
exactly when fewer than three tokens come back.  No other validation. -/
def pluginInit (tok : Tokenizer) (cfg : PluginConfig) : Except String (Nat × Nat) :=
  match tok.encode (cfg.start_think_token ++ cfg.end_think_token) with
  | _ :: a :: b :: _ => Except.ok (a, b)
  | _ => Except.error "IndexError: list index out of range"

/-- Outer `run` (lines 120-164): construct the processor, generate, count
completion tokens; any exception anywhere inside the `try` is caught and
downgraded to `(f"Error in enhanced thinking process: {e}", 0)`. -/
def run (cfg : PluginConfig) (tok : Tokenizer) (eosId : Nat)
    (oracle : Nat → Except String PDraw) (fuel : Nat) (templatePrefixText : String) :
    Option (String × Nat) :=
  match pluginInit tok cfg with
  | Except.error e => some ("Error in enhanced thinking process: " ++ e, 0)
  | Except.ok (_startTok, endTok) =>
    match reasoning_effortE cfg tok eosId endTok oracle fuel templatePrefixText with
    | some (Except.ok response) => some (response, (tok.encode response).length)
    | some (Except.error e) => some ("Error in enhanced thinking process: " ++ e, 0)
    | none => none

/-- Termination of the plugin loop from the initial state, for some finite
iteration count. -/
def terminates (cfg : PluginConfig) (tok : Tokenizer) (eosId endId : Nat)
    (oracle : Nat → PDraw) : Prop :=
  ∃ fuel st, pluginLoop cfg tok eosId endId oracle fuel 0 ⟨0, false, []⟩ = some st

end ThinkdeeperPlugin

open Thinkdeeper ThinkdeeperPlugin

/-! Concrete fixtures used by counterexamples and witnesses. -/

/-- Toy tokenizer: encodes any string as one token carrying its length,
and decodes a few fixed ids to fixed strings. -/
def toyTok : ThinkdeeperPlugin.Tokenizer :=
  ⟨fun s => [s.length],
   fun n => if n = 7 then "abc" else if n = 1 then "</think>"
            else if n = 0 then "<eos>" else "tok"⟩

/-- A token source that proposes the end-of-sequence token (id 0) forever. -/
def allEosOracle : Nat → ThinkdeeperPlugin.PDraw := fun _ => ⟨0, 0⟩

/-- Plugin config with `min_thinking_tokens = 1` and one replacement. -/
def cfgC2 : ThinkdeeperPlugin.PluginConfig := ⟨["X"], 1, "", "<think>", "</think>"⟩

/-- Token source: end-think token (id 1) first, then end-of-sequence (id 0). -/
def oracleC2 : Nat → ThinkdeeperPlugin.PDraw := fun i => if i = 0 then ⟨1, 0⟩ else ⟨0, 0⟩

/-- Plugin config with `min_thinking_tokens = 0`. -/
def cfgC2w : ThinkdeeperPlugin.PluginConfig := ⟨["R"], 0, "", "<think>", "</think>"⟩

/-- Plugin config with `min_thinking_tokens = 0`, for the prefix-trim run. -/
def cfgC7 : ThinkdeeperPlugin.PluginConfig := ⟨["R"], 0, "", "<think>", "</think>"⟩

/-- Token source: content token "abc" (id 7), then end-think (id 1), then
end-of-sequence (id 0). -/
def oracleC7 : Nat → ThinkdeeperPlugin.PDraw :=
  fun i => if i = 0 then ⟨7, 0⟩ else if i = 1 then ⟨1, 0⟩ else ⟨0, 0⟩

/-- Tokenizer whose `encode` always returns three tokens, so the plugin
`__init__` marker resolution succeeds. -/
def tok3 : ThinkdeeperPlugin.Tokenizer := ⟨fun _ => [0, 1, 2], fun _ => ""⟩

/-- A backend that fails on its first call. -/
def failingOracle : Nat → Except String ThinkdeeperPlugin.PDraw :=
  fun _ => Except.error "boom"

/-- Simulated config violating the §3 bound invariant:
`min_thinking_tokens = 10 > 5 = max_thinking_tokens`. -/
def badSimConfig : Thinkdeeper.SimConfig :=
  ⟨10, 5, 2, "", "<think>", "</think>", ["Wait,", "Alternatively,"]⟩

/-- Oracle always drawing the thought-switch branch. -/
def switchOracle : Nat → Thinkdeeper.Draw := fun _ => ⟨true, 0, 0, 0, false⟩

/-- Oracle never drawing a switch, always passing the natural-end draw. -/
def stepEndOracle : Nat → Thinkdeeper.Draw := fun _ => ⟨false, 0, 0, 0, true⟩

/-- Simulated config with a small bound set, for concrete runs. -/
def cfgC2s : Thinkdeeper.SimConfig := ⟨1, 10, 3, "", "<think>", "</think>", ["Wait,"]⟩

/-- Plugin config with `min_thinking_tokens = 3`. -/
def cfgC4p : ThinkdeeperPlugin.PluginConfig := ⟨["\nWait, but"], 3, "", "<think>", "</think>"⟩

/-- Simulated config with `min_thinking_tokens = 1`. -/
def cfgC4s : Thinkdeeper.SimConfig := ⟨1, 100, 5, "", "<think>", "</think>", ["Wait,"]⟩

/-- Draw taking the reasoning-step branch and passing the natural-end draw. -/
def drawC4 : Thinkdeeper.Draw := ⟨false, 0, 0, 0, true⟩

/-- Draw taking the thought-switch branch. -/
def drawC6 : Thinkdeeper.Draw := ⟨true, 0, 0, 0, false⟩

/-- Request configuration setting `thought_switch_tokens` to the empty list. -/
def reqEmptySwitches : Thinkdeeper.SimOptions :=
  ⟨none, none, none, none, none, none, some []⟩

/-! Helper lemmas about the simulated variant. -/

/-- Appending a singleton fixes the last element. -/
theorem getLast?_append_singleton (l : List String) (a : String) :
    (l ++ [a]).getLast? = some a :=
  List.getLast?_concat l

/-- The head of a non-empty list is unchanged by appending. -/
theorem head?_append_of_left_ne_nil (l l' : List String) (h : l ≠ []) :
    (l ++ l').head? = l.head? := by
  cases l with
  | nil => exact absurd rfl h
  | cons a t => rfl

/-- A `choice` from a non-empty list is a member of it. -/
theorem choice_mem {l : List String} (h : l ≠ []) (i : Nat) : choice l i ∈ l := by
  have hlen : 0 < l.length := List.length_pos.mpr h
  have hlt : i % l.length < l.length := Nat.mod_lt _ hlen
  rw [choice, List.getD_eq_getElem l "" hlt]
  exact List.getElem_mem hlt

/-- Every reachable index pair yields a step string from the finite table. -/
theorem mkStep_mem_table :
    ∀ a, a < 7 → ∀ b, b < 3 →
      (response_vocabulary.getD a "" ++ " " ++ fillers.getD b "" ++ ".") ∈ stepStrings := by
  decide

/-- Every step string `mkStep` can build is in `stepStrings`. -/
theorem mkStep_mem (a b : Nat) : mkStep a b ∈ stepStrings := by
  have := mkStep_mem_table (a % 7) (Nat.mod_lt _ (by norm_num)) (b % 3)
    (Nat.mod_lt _ (by norm_num))
  simpa [mkStep, choice, response_vocabulary, fillers] using this

/-- Every step string has word count at least one. -/
theorem stepStrings_wordCount : ∀ s ∈ stepStrings, 1 ≤ wordCount s := by decide

/-- Every reasoning step contributes at least one word. -/
theorem one_le_wordCount_mkStep (a b : Nat) : 1 ≤ wordCount (mkStep a b) :=
  stepStrings_wordCount _ (mkStep_mem a b)

/-- The branch of lines 71-81 appends exactly one element — a chosen
thought-switch phrase or a step string — and leaves `seen_end_think`
unchanged; it never decreases either counter and strictly increases their
sum. -/
theorem simBranch_spec (cfg : SimConfig) (d : Draw) (st : SimState) :
    (simBranch cfg d st).seen_end_think = st.seen_end_think ∧
    (∃ x, (simBranch cfg d st).current_text = st.current_text ++ [x] ∧
      ((∃ j, x = choice cfg.thought_switch_tokens j) ∨ x ∈ stepStrings)) ∧
    st.n_thinking_steps ≤ (simBranch cfg d st).n_thinking_steps ∧
    st.thought_count ≤ (simBranch cfg d st).thought_count ∧
    st.n_thinking_steps + st.thought_count
      < (simBranch cfg d st).n_thinking_steps + (simBranch cfg d st).thought_count := by
  unfold simBranch
  split
  · refine ⟨rfl, ⟨_, rfl, Or.inl ⟨d.switchIdx, rfl⟩⟩, Nat.le_refl _, Nat.le_succ _, ?_⟩
    show st.n_thinking_steps + st.thought_count
        < st.n_thinking_steps + (st.thought_count + 1)
    omega
  · refine ⟨rfl, ⟨_, rfl, Or.inr (mkStep_mem _ _)⟩, Nat.le_add_right _ _, Nat.le_refl _, ?_⟩
    have := one_le_wordCount_mkStep d.vocabIdx d.fillerIdx
    show st.n_thinking_steps + st.thought_count
        < (st.n_thinking_steps + wordCount (mkStep d.vocabIdx d.fillerIdx)) + st.thought_count
    omega

/-- If the natural-end check of lines 83-87 does not fire, the state passes
through unchanged. -/
theorem simAfterBranch_inl {cfg : SimConfig} {d : Draw} {st1 st' : SimState}
    (h : simAfterBranch cfg d st1 = Sum.inl st') : st' = st1 := by
  unfold simAfterBranch at h
  split at h <;> simp_all

/-- If the natural-end check of lines 83-87 fires, the minimum has been
reached, `seen_end_think` was false, and the end marker is appended. -/
theorem simAfterBranch_inr {cfg : SimConfig} {d : Draw} {st1 st' : SimState}
    (h : simAfterBranch cfg d st1 = Sum.inr st') :
    st' = { st1 with current_text := st1.current_text ++ [cfg.end_think_token],
                     seen_end_think := true } ∧
    cfg.min_thinking_tokens ≤ st1.n_thinking_steps ∧ st1.seen_end_think = false := by
  unfold simAfterBranch at h
  split at h
  · rename_i hc
    exact ⟨(Sum.inr.inj h).symm, hc.1, hc.2.2⟩
  · simp_all

/-- A continuing iteration of the loop keeps `seen_end_think` false, can
only happen strictly below both bounds, and strictly increases the counter
sum without decreasing either counter. -/
theorem simIter_inl_spec {cfg : SimConfig} {d : Draw} {st st' : SimState}
    (h : simIter cfg d st = Sum.inl st') (hseen : st.seen_end_think = false) :
    st'.seen_end_think = false ∧
    st.n_thinking_steps < cfg.max_thinking_tokens ∧
    st.thought_count < cfg.max_thoughts ∧
    st.n_thinking_steps ≤ st'.n_thinking_steps ∧
    st.thought_count ≤ st'.thought_count ∧
    st.n_thinking_steps + st.thought_count
      < st'.n_thinking_steps + st'.thought_count := by
  unfold simIter at h
  split at h
  · exact absurd h (by simp)
  · rename_i hcond
    have hb := simBranch_spec cfg d st
    have he := simAfterBranch_inl h
    have hforce : ¬(cfg.max_thinking_tokens ≤ st.n_thinking_steps ∨
        cfg.max_thoughts ≤ st.thought_count) := fun hd => hcond ⟨hd, hseen⟩
    subst he
    exact ⟨hb.1.trans hseen, by omega, by omega, hb.2.2.1, hb.2.2.2.1, hb.2.2.2.2⟩

/-- A continuing iteration appends exactly one element, which is a chosen
thought-switch phrase or a step string. -/
theorem simIter_inl_text {cfg : SimConfig} {d : Draw} {st st' : SimState}
    (h : simIter cfg d st = Sum.inl st') :
    ∃ x, st'.current_text = st.current_text ++ [x] ∧
      ((∃ j, x = choice cfg.thought_switch_tokens j) ∨ x ∈ stepStrings) := by
  unfold simIter at h
  split at h
  · exact absurd h (by simp)
  · obtain ⟨_, ⟨x, hx, hmem⟩, _⟩ := simBranch_spec cfg d st
    have he := simAfterBranch_inl h
    exact ⟨x, he ▸ hx, hmem⟩

/-- An exiting iteration sets `seen_end_think` and appends the end marker
last, preceded by at most one freshly generated element. -/
theorem simIter_inr_spec {cfg : SimConfig} {d : Draw} {st st' : SimState}
    (h : simIter cfg d st = Sum.inr st') :
    st'.seen_end_think = true ∧
    (st'.current_text = st.current_text ++ [cfg.end_think_token] ∨
     ∃ x, st'.current_text = st.current_text ++ [x] ++ [cfg.end_think_token] ∧
       ((∃ j, x = choice cfg.thought_switch_tokens j) ∨ x ∈ stepStrings)) := by
  unfold simIter at h
  split at h
  · obtain rfl := Sum.inr.inj h
    exact ⟨rfl, Or.inl rfl⟩
  · obtain ⟨_, ⟨x, hx, hmem⟩, _⟩ := simBranch_spec cfg d st
    obtain ⟨heq, _, _⟩ := simAfterBranch_inr h
    subst heq
    exact ⟨rfl, Or.inr ⟨x, by rw [hx], hmem⟩⟩

/-- Fuel sufficiency: from any loop state with the flag unset, the loop
exits within `(max_thinking_tokens - n) + (max_thoughts - tc) + 1`
iterations, for every oracle. -/
theorem simLoop_isSome_of_fuel (cfg : SimConfig) (oracle : Nat → Draw) :
    ∀ fuel i st, st.seen_end_think = false →
      (cfg.max_thinking_tokens - st.n_thinking_steps) +
        (cfg.max_thoughts - st.thought_count) < fuel →
      (simLoop cfg oracle fuel i st).isSome = true := by
  intro fuel
  induction fuel with
  | zero => intro i st _ hm; omega
  | succ f ih =>
    intro i st hseen hm
    show (match simIter cfg (oracle i) st with
      | Sum.inr stop => some stop
      | Sum.inl next => simLoop cfg oracle f (i+1) next).isSome = true
    rcases hit : simIter cfg (oracle i) st with next | stop
    · obtain ⟨h1, h2, h3, h4, h5, h6⟩ := simIter_inl_spec hit hseen
      exact ih (i+1) next h1 (by omega)
    · rfl

/-- Exit shape of the loop: the exit state has the flag set and its buffer
is the entry buffer extended by freshly generated elements (each a chosen
thought-switch phrase or a step string) with the end marker appended last. -/
theorem simLoop_exit (cfg : SimConfig) (oracle : Nat → Draw) :
    ∀ fuel i st st', simLoop cfg oracle fuel i st = some st' →
      st'.seen_end_think = true ∧
      ∃ l, st'.current_text = st.current_text ++ (l ++ [cfg.end_think_token]) ∧
        ∀ x ∈ l, (∃ j, x = choice cfg.thought_switch_tokens j) ∨ x ∈ stepStrings := by
  intro fuel
  induction fuel with
  | zero => intro i st st' h; exact absurd h (by simp [simLoop])
  | succ f ih =>
    intro i st st' h
    have hdef : simLoop cfg oracle (f+1) i st =
        match simIter cfg (oracle i) st with
        | Sum.inr stop => some stop
        | Sum.inl next => simLoop cfg oracle f (i+1) next := rfl
    rw [hdef] at h
    rcases hit : simIter cfg (oracle i) st with next | stop
    · rw [hit] at h
      obtain ⟨hseen', l, hl, hmem⟩ := ih (i+1) next st' h
      obtain ⟨x, hx, hxmem⟩ := simIter_inl_text hit
      refine ⟨hseen', x :: l, ?_, ?_⟩
      · rw [hl, hx]; simp
      · intro y hy
        rcases List.mem_cons.mp hy with rfl | hy'
        · exact hxmem
        · exact hmem y hy'
    · rw [hit] at h
      obtain rfl := Option.some.inj h
      obtain ⟨hseen', hshape⟩ := simIter_inr_spec hit
      rcases hshape with hshape | ⟨x, hshape, hxmem⟩
      · exact ⟨hseen', [], by simpa using hshape, by simp⟩
      · refine ⟨hseen', [x], ?_, ?_⟩
        · rw [hshape]; simp
        · simpa using hxmem

/-! Helper lemmas about the token-id variant. -/

/-- The loop of the token-id variant can only exit through the
`eos-and-seen` branch, whose exit state has `seen_end_think = true`. -/
theorem pluginIter_inr_seen {cfg : PluginConfig} {tok : Tokenizer} {eosId endId : Nat}
    {d : PDraw} {st st' : PState}
    (h : pluginIter cfg tok eosId endId d st = Sum.inr st') :
    st'.seen_end_think = true := by
  unfold pluginIter at h
  rcases hb : pluginBranch cfg eosId endId st d.next_token with _ | _ | _ <;>
      rw [hb] at h
  · exact absurd h (by simp)
  · obtain rfl := Sum.inr.inj h
    unfold pluginBranch at hb
    split at hb
    · exact absurd hb (by simp)
    · split at hb
      · rename_i hc
        exact hc.2
      · exact absurd hb (by simp)
  · exact absurd h (by simp)

/-- Any normal exit of the token-id loop has the flag set. -/
theorem pluginLoop_some_seen (cfg : PluginConfig) (tok : Tokenizer) (eosId endId : Nat)
    (oracle : Nat → PDraw) :
    ∀ fuel i st st', pluginLoop cfg tok eosId endId oracle fuel i st = some st' →
      st'.seen_end_think = true := by
  intro fuel
  induction fuel with
  | zero => intro i st st' h; exact absurd h (by simp [pluginLoop])
  | succ f ih =>
    intro i st st' h
    have hdef : pluginLoop cfg tok eosId endId oracle (f+1) i st =
        match pluginIter cfg tok eosId endId (oracle i) st with
        | Sum.inr stop => some stop
        | Sum.inl next => pluginLoop cfg tok eosId endId oracle f (i+1) next := rfl
    rw [hdef] at h
    rcases hit : pluginIter cfg tok eosId endId (oracle i) st with next | stop
    · rw [hit] at h
      exact ih (i+1) next st' h
    · rw [hit] at h
      obtain rfl := Option.some.inj h
      exact pluginIter_inr_seen hit

/-- Under the all-EOS token source, the loop never exits: the flag can
never be set (the end-think token is never proposed), so every EOS is
replaced, forever. -/
theorem pluginLoop_allEos_none :
    ∀ fuel i st, st.seen_end_think = false →
      pluginLoop pluginDefaultConfig toyTok 0 1 allEosOracle fuel i st = none := by
  intro fuel
  induction fuel with
  | zero => intro i st _; rfl
  | succ f ih =>
    intro i st hseen
    have hseen' : pluginSeen 1 st 0 = false := hseen
    have hb : pluginBranch pluginDefaultConfig 0 1 st (allEosOracle i).next_token =
        PBranch.replace := by
      unfold pluginBranch
      rw [if_pos (Or.inr ⟨rfl, hseen'⟩)]
    have hit : pluginIter pluginDefaultConfig toyTok 0 1 (allEosOracle i) st =
        Sum.inl ⟨st.n_thinking_tokens + 1, st.seen_end_think,
          st.response_chunks ++ ["\nWait, but"]⟩ := by
      unfold pluginIter
      rw [hb]
      rfl
    have hdef : pluginLoop pluginDefaultConfig toyTok 0 1 allEosOracle (f+1) i st =
        match pluginIter pluginDefaultConfig toyTok 0 1 (allEosOracle i) st with
        | Sum.inr stop => some stop
        | Sum.inl next => pluginLoop pluginDefaultConfig toyTok 0 1 allEosOracle f (i+1) next := rfl
    rw [hdef, hit]
    exact ih (i+1) _ hseen

/-! Claim theorems. -/

/-- C1 (counterexample): the token-id variant's loop has no termination
bound at all.  Under the default plugin configuration (which has no maximum
bound — `max_thinking_tokens` and `max_thoughts` do not exist in the plugin
config) and a token source that proposes end-of-sequence forever, the loop
never exits: every EOS is replaced because the end-think token is never
seen, so no iteration count whatsoever suffices. -/
theorem plugin_loop_has_no_termination_bound :
    ¬ ThinkdeeperPlugin.terminates pluginDefaultConfig toyTok 0 1 allEosOracle := by
  rintro ⟨fuel, st, h⟩
  rw [pluginLoop_allEos_none fuel 0 _ rfl] at h
  exact Option.noConfusion h

/-- C1 (amended): in the simulated variant, for every configuration, every
initial `thought_count`, and every oracle behavior, `reasoning_effort`
terminates within `max_thinking_tokens + max_thoughts + 1` loop iterations
(the fuel `simFuel` baked into `reasoning_effortState`) — a bound that is a
function of `max_thinking_tokens` and `max_thoughts` only. -/
theorem sim_reasoning_effort_terminates_within_bound
    (cfg : SimConfig) (messages : List Msg) (tc0 : Nat) (oracle : Nat → Draw) :
    (Thinkdeeper.reasoning_effortState cfg messages tc0 oracle).isSome = true := by
  have hdef : Thinkdeeper.reasoning_effortState cfg messages tc0 oracle =
      (simLoop cfg oracle (simFuel cfg) 0
        ⟨[cfg.start_think_token ++ "\n" ++ cfg.prefill], 0, tc0, false⟩).map
        (fun st => if st.seen_end_think then st
          else { st with current_text := st.current_text ++ [cfg.end_think_token] }) := rfl
  rw [hdef, Option.isSome_map']
  refine simLoop_isSome_of_fuel cfg oracle _ 0 _ rfl ?_
  show cfg.max_thinking_tokens - 0 + (cfg.max_thoughts - tc0)
      < cfg.max_thinking_tokens + cfg.max_thoughts + 1
  omega

/-- C2 (counterexample): a run of the token-id variant that returns
normally although no end-think marker was ever emitted into the returned
text.  With `min_thinking_tokens = 1`, the source proposes the end-think
token first (suppressed and replaced by `"X"`, yet recorded as seen), then
EOS: the loop halts through the eos-and-seen branch and returns `"X"`,
which does not contain the marker string. -/
theorem plugin_run_returns_text_without_end_marker :
    ThinkdeeperPlugin.pluginLoop cfgC2 toyTok 0 1 oracleC2 5 0 ⟨0, false, []⟩ =
      some ⟨1, true, ["X"]⟩ ∧
    toyTok.decode 1 ∉ ["X"] ∧
    ThinkdeeperPlugin.reasoning_effort cfgC2 toyTok 0 1 oracleC2 5 "" = some "X" :=
  ⟨rfl, by decide, rfl⟩

/-- C2 (amended): generation stops only once the end-think marker has been
observed from the token source (`seen_end_think = true` at every normal
loop exit of the token-id variant); in the simulated variant the returned
buffer moreover always ends with the end-think marker.  (In the token-id
variant the observed marker may have been suppressed by a premature-close
replacement, so the returned text need not contain it.) -/
theorem generation_stops_only_after_end_marker_seen :
    (∀ (cfg : PluginConfig) (tok : Tokenizer) (eosId endId : Nat)
        (oracle : Nat → PDraw) (fuel i : Nat) (st st' : PState),
        ThinkdeeperPlugin.pluginLoop cfg tok eosId endId oracle fuel i st = some st' →
        st'.seen_end_think = true) ∧
    (∀ (cfg : SimConfig) (messages : List Msg) (tc0 : Nat) (oracle : Nat → Draw)
        (st : SimState),
        Thinkdeeper.reasoning_effortState cfg messages tc0 oracle = some st →
        st.current_text.getLast? = some cfg.end_think_token) := by
  constructor
  · intro cfg tok eosId endId oracle fuel i st st' h
    exact pluginLoop_some_seen cfg tok eosId endId oracle fuel i st st' h
  · intro cfg messages tc0 oracle st h
    have hdef : Thinkdeeper.reasoning_effortState cfg messages tc0 oracle =
        (simLoop cfg oracle (simFuel cfg) 0
          ⟨[cfg.start_think_token ++ "\n" ++ cfg.prefill], 0, tc0, false⟩).map
          (fun s => if s.seen_end_think then s
            else { s with current_text := s.current_text ++ [cfg.end_think_token] }) := rfl
    rw [hdef] at h
    rcases hl : simLoop cfg oracle (simFuel cfg) 0
        ⟨[cfg.start_think_token ++ "\n" ++ cfg.prefill], 0, tc0, false⟩ with _ | st0
    · rw [hl] at h
      exact absurd h (by simp)
    · rw [hl] at h
      obtain ⟨hseen, l, hshape, _⟩ := simLoop_exit cfg oracle _ _ _ _ hl
      rw [Option.map_some'] at h
      obtain rfl := Option.some.inj h
      rw [if_pos hseen, hshape, ← List.append_assoc, getLast?_append_singleton]

/-- C2 (witness): the amended theorem applied to a concrete token-id run
(halting with the flag set) and a concrete simulated run (buffer ending
with the marker). -/
theorem generation_stops_only_after_end_marker_seen_witness :
    ((⟨1, true, ["</think>"]⟩ : PState).seen_end_think = true) ∧
    ((⟨["<think>\n", "Wait,", "Wait,", "Wait,", "</think>"], 0, 3, true⟩ :
        SimState).current_text.getLast? = some cfgC2s.end_think_token) :=
  ⟨generation_stops_only_after_end_marker_seen.1 cfgC2w toyTok 0 1 oracleC2 5 0
      ⟨0, false, []⟩ ⟨1, true, ["</think>"]⟩ rfl,
   generation_stops_only_after_end_marker_seen.2 cfgC2s [] 0 switchOracle
      ⟨["<think>\n", "Wait,", "Wait,", "Wait,", "</think>"], 0, 3, true⟩ rfl⟩

/-- C3 (counterexample): the premature-close transition of the token-id
variant does NOT leave `seen_end_think` unchanged.  With the default config
(`min_thinking_tokens = 128`), end-think token id 1 proposed at count 0 is
replaced by `"\nWait, but"`, but the resulting state has
`seen_end_think = true` — the suppressed marker IS recorded as seen
(line 85-86 runs before the branch). -/
theorem premature_close_records_marker_as_seen :
    ThinkdeeperPlugin.pluginIter pluginDefaultConfig toyTok 0 1 ⟨1, 0⟩ ⟨0, false, []⟩ =
      Sum.inl ⟨1, true, ["\nWait, but"]⟩ := rfl

/-- C3 (amended): in the premature-close transition (end-think proposed
while the count is below the minimum), the controller appends a randomly
chosen replacement phrase instead of the marker, adds the replacement's
token count, and SETS `seen_end_think` to true: the suppressed marker is
recorded as seen. -/
theorem premature_close_substitutes_and_sets_seen
    (cfg : PluginConfig) (tok : Tokenizer) (eosId endId : Nat) (d : PDraw) (st : PState)
    (hnt : d.next_token = endId)
    (hmin : st.n_thinking_tokens < cfg.min_thinking_tokens) :
    ThinkdeeperPlugin.pluginIter cfg tok eosId endId d st =
      Sum.inl ⟨st.n_thinking_tokens +
          (tok.encode (choice cfg.replacements d.replIdx)).length,
        true,
        st.response_chunks ++ [choice cfg.replacements d.replIdx]⟩ := by
  have hb : pluginBranch cfg eosId endId st d.next_token = PBranch.replace := by
    unfold pluginBranch
    rw [if_pos (Or.inl ⟨Or.inl hnt, hmin⟩)]
  have hseen : pluginSeen endId st d.next_token = true := by
    unfold pluginSeen
    rw [hnt, if_pos rfl]
  unfold pluginIter
  rw [hb, hseen]

/-- C3 (witness): the amended premature-close transition at a concrete
state. -/
theorem premature_close_substitutes_and_sets_seen_witness :
    ThinkdeeperPlugin.pluginIter cfgC2 toyTok 0 1 ⟨1, 5⟩ ⟨0, false, ["p"]⟩ =
      Sum.inl ⟨1, true, ["p", "X"]⟩ :=
  premature_close_substitutes_and_sets_seen cfgC2 toyTok 0 1 ⟨1, 5⟩ ⟨0, false, ["p"]⟩ rfl
    (by decide)

/-- C4 (confirmed): an end-think marker is honored (classified as ordinary
content and appended to the buffer, rather than replaced) only when the
reasoning-unit count has reached `min_thinking_tokens`; likewise the
simulated variant's natural-end transition appends the end marker only at
or above the minimum. -/
theorem end_marker_honored_only_at_min :
    (∀ (cfg : PluginConfig) (eosId endId : Nat) (st : PState) (nt : Nat),
      nt = endId →
      ThinkdeeperPlugin.pluginBranch cfg eosId endId st nt = PBranch.content →
      cfg.min_thinking_tokens ≤ st.n_thinking_tokens) ∧
    (∀ (cfg : SimConfig) (d : Draw) (st st' : SimState),
      st.seen_end_think = false →
      st.n_thinking_steps < cfg.max_thinking_tokens →
      st.thought_count < cfg.max_thoughts →
      Thinkdeeper.simIter cfg d st = Sum.inr st' →
      cfg.min_thinking_tokens ≤ st'.n_thinking_steps) := by
  constructor
  · intro cfg eosId endId st nt hnt hb
    unfold pluginBranch at hb
    split at hb
    · exact absurd hb (by simp)
    · split at hb
      · exact absurd hb (by simp)
      · rename_i hc1 hc2
        by_contra hlt
        exact hc1 (Or.inl ⟨Or.inl hnt, Nat.lt_of_not_le hlt⟩)
  · intro cfg d st st' hseen hmax hth hit
    unfold simIter at hit
    split at hit
    · rename_i hc
      rcases hc.1 with h | h <;> omega
    · obtain ⟨heq, hmin, _⟩ := simAfterBranch_inr hit
      subst heq
      exact hmin

/-- C4 (witness): the honor transition at concrete states in both
variants, each at or above the configured minimum. -/
theorem end_marker_honored_only_at_min_witness :
    cfgC4p.min_thinking_tokens ≤ (5 : Nat) ∧ cfgC4s.min_thinking_tokens ≤ (6 : Nat) :=
  ⟨end_marker_honored_only_at_min.1 cfgC4p 0 1 ⟨5, false, []⟩ 1 rfl (by decide),
   end_marker_honored_only_at_min.2 cfgC4s drawC4 ⟨["x"], 3, 0, false⟩
     ⟨["x", "Let’s consider this.", "</think>"], 6, 0, true⟩ rfl (by decide) (by decide) rfl⟩

/-- C5 (counterexample): a configuration with
`min_thinking_tokens = 10 > 5 = max_thinking_tokens` violates the §3 bound
invariant, yet no configuration error is raised anywhere: `__init__`
succeeds and the generation loop runs to normal completion. -/
theorem invalid_bounds_config_runs_without_error :
    badSimConfig.max_thinking_tokens < badSimConfig.min_thinking_tokens ∧
    Thinkdeeper.processorInit badSimConfig = Except.ok badSimConfig ∧
    Thinkdeeper.reasoning_effortState badSimConfig [] 0 switchOracle =
      some ⟨["<think>\n", "Wait,", "Wait,", "</think>"], 0, 2, true⟩ :=
  ⟨by decide, rfl, rfl⟩

/-- C5 (amended): no invariant of §3 is validated before the loop.  The
simulated `__init__` fails exactly when the thought-switch list is empty
(the incidental `ValueError` from `max()` on an empty sequence), and the
plugin `__init__` fails exactly when the concatenated markers encode to
fewer than three tokens (the incidental `IndexError` of `tokens[2]`);
`min > max` and an empty replacement set raise nothing before the loop. -/
theorem config_validation_only_incidental_in_init :
    (∀ cfg : SimConfig,
      (Thinkdeeper.processorInit cfg).isOk = true ↔ cfg.thought_switch_tokens ≠ []) ∧
    (∀ (tok : Tokenizer) (cfg : PluginConfig),
      (ThinkdeeperPlugin.pluginInit tok cfg).isOk = true ↔
        3 ≤ (tok.encode (cfg.start_think_token ++ cfg.end_think_token)).length) := by
  constructor
  · intro cfg
    by_cases h : cfg.thought_switch_tokens = []
    · have he : cfg.thought_switch_tokens.isEmpty = true := List.isEmpty_iff.mpr h
      simp [Thinkdeeper.processorInit, he, h, Except.isOk, Except.toBool]
    · have he : cfg.thought_switch_tokens.isEmpty = false := by
        rcases hc : cfg.thought_switch_tokens with _ | ⟨a, t⟩
        · exact absurd hc h
        · rfl
      simp [Thinkdeeper.processorInit, he, h, Except.isOk, Except.toBool]
  · intro tok cfg
    rcases h : tok.encode (cfg.start_think_token ++ cfg.end_think_token) with
      _ | ⟨a, _ | ⟨b, _ | ⟨c, t⟩⟩⟩ <;>
      simp [ThinkdeeperPlugin.pluginInit, h, Except.isOk, Except.toBool]

/-- C6 (counterexample): an injected thought-switch phrase does not
increment the reasoning-unit counter in the simulated variant.  Under the
default configuration, a switch draw at count 0 appends `"Wait,"` (word
count 1) but leaves `n_thinking_steps` at 0, incrementing only
`thought_count`. -/
theorem sim_thought_switch_does_not_count :
    Thinkdeeper.simIter Thinkdeeper.DEFAULT_CONFIG drawC6 ⟨["a"], 0, 0, false⟩ =
      Sum.inl ⟨["a", "Wait,"], 0, 1, false⟩ ∧
    Thinkdeeper.wordCount "Wait," = 1 :=
  ⟨rfl, rfl⟩

/-- C6 (amended): in the token-id variant every injected replacement
increments `n_thinking_tokens` by the replacement's encoded token count —
the same token-counting rule as ordinary content; in the simulated variant
an injected thought-switch phrase increments `thought_count` only and
leaves `n_thinking_steps` unchanged. -/
theorem replacement_unit_accounting :
    (∀ (cfg : PluginConfig) (tok : Tokenizer) (eosId endId : Nat) (d : PDraw) (st : PState),
      ThinkdeeperPlugin.pluginBranch cfg eosId endId st d.next_token = PBranch.replace →
      Sum.elim (fun s : PState => s.n_thinking_tokens) (fun s : PState => s.n_thinking_tokens)
          (ThinkdeeperPlugin.pluginIter cfg tok eosId endId d st)
        = st.n_thinking_tokens +
          (tok.encode (choice cfg.replacements d.replIdx)).length) ∧
    (∀ (cfg : SimConfig) (d : Draw) (st : SimState),
      st.seen_end_think = false →
      d.switchDraw = true ∨ st.n_thinking_steps = 0 →
      ¬(cfg.max_thinking_tokens ≤ st.n_thinking_steps ∨
          cfg.max_thoughts ≤ st.thought_count) →
      Sum.elim (fun s : SimState => s.n_thinking_steps) (fun s : SimState => s.n_thinking_steps)
          (Thinkdeeper.simIter cfg d st)
        = st.n_thinking_steps) := by
  constructor
  · intro cfg tok eosId endId d st hb
    unfold ThinkdeeperPlugin.pluginIter
    rw [hb]
    rfl
  · intro cfg d st hseen hsw hforce
    have hswb : simBranch cfg d st =
        { st with
          current_text := st.current_text ++ [choice cfg.thought_switch_tokens d.switchIdx],
          thought_count := st.thought_count + 1 } := by
      unfold simBranch
      rw [if_pos ⟨hseen, hsw⟩]
    unfold Thinkdeeper.simIter
    rw [if_neg (fun hc => hforce hc.1), hswb]
    unfold simAfterBranch
    split <;> rfl

/-- C6 (witness): the amended accounting at a concrete replacement step of
the token-id variant and a concrete thought-switch step of the simulated
variant. -/
theorem replacement_unit_accounting_witness :
    Sum.elim (fun s : PState => s.n_thinking_tokens) (fun s : PState => s.n_thinking_tokens)
        (ThinkdeeperPlugin.pluginIter cfgC4p toyTok 0 1 ⟨0, 0⟩ ⟨2, false, []⟩)
      = 2 + (toyTok.encode (choice cfgC4p.replacements 0)).length ∧
    Sum.elim (fun s : SimState => s.n_thinking_steps) (fun s : SimState => s.n_thinking_steps)
        (Thinkdeeper.simIter cfgC4s drawC6 ⟨["y"], 2, 0, false⟩)
      = 2 :=
  ⟨replacement_unit_accounting.1 cfgC4p toyTok 0 1 ⟨0, 0⟩ ⟨2, false, []⟩ (by decide),
   replacement_unit_accounting.2 cfgC4s drawC6 ⟨["y"], 2, 0, false⟩ rfl (Or.inl rfl)
     (by decide)⟩

/-- C7 (code bug, failing input): the returned text of the token-id
variant is NOT the generated continuation.  `response_chunks` never
contains the prompt/template (only generated or substituted chunks), yet
lines 113-115 slice `len(template_prefix_text)` characters off the joined
chunks.  Concretely: the generated chunks are `["abc", "</think>"]`, the
template prefix text is `"xyz"` (length 3), and the returned text is
`"</think>"` — the generated chunk `"abc"` has been excised even though the
full response `"abc</think>"` contains no prompt text at all. -/
theorem plugin_prefix_trim_drops_generated_text :
    ThinkdeeperPlugin.pluginLoop cfgC7 toyTok 0 1 oracleC7 10 0 ⟨0, false, []⟩ =
      some ⟨2, true, ["abc", "</think>"]⟩ ∧
    String.join ["abc", "</think>"] = "abc</think>" ∧
    ThinkdeeperPlugin.reasoning_effort cfgC7 toyTok 0 1 oracleC7 10 "xyz" =
      some "</think>" :=
  ⟨rfl, rfl, rfl⟩

/-- C8 (confirmed): a backend failure is never silently returned as a
truncated successful buffer.  In the token-id variant, `run` maps any
failure of the generation to the explicit failure string
`"Error in enhanced thinking process: " ++ e` with 0 completion tokens —
whatever chunks had been generated are discarded; in the simulated variant,
`thinkdeeper_decode` re-raises (propagates) the failure. -/
theorem backend_failure_never_silent_success :
    (∀ (cfg : PluginConfig) (tok : Tokenizer) (eosId : Nat)
        (oracle : Nat → Except String PDraw) (fuel : Nat) (tpl : String)
        (s endTok : Nat) (e : String),
      ThinkdeeperPlugin.pluginInit tok cfg = Except.ok (s, endTok) →
      ThinkdeeperPlugin.reasoning_effortE cfg tok eosId endTok oracle fuel tpl =
        some (Except.error e) →
      ThinkdeeperPlugin.run cfg tok eosId oracle fuel tpl =
        some ("Error in enhanced thinking process: " ++ e, 0)) ∧
    (∀ (messages : Option (List Msg)) (req : SimOptions) (oracle : Nat → Draw),
      (Thinkdeeper.mergeConfig req).thought_switch_tokens = [] →
      Thinkdeeper.thinkdeeper_decode messages (some req) oracle =
        Except.error "max() arg is an empty sequence") := by
  constructor
  · intro cfg tok eosId oracle fuel tpl s endTok e hinit hre
    unfold ThinkdeeperPlugin.run
    rw [hinit]
    show (match ThinkdeeperPlugin.reasoning_effortE cfg tok eosId endTok oracle fuel tpl with
      | some (Except.ok response) => some (response, (tok.encode response).length)
      | some (Except.error e) => some ("Error in enhanced thinking process: " ++ e, 0)
      | none => none) = some ("Error in enhanced thinking process: " ++ e, 0)
    rw [hre]
  · intro messages req oracle hsw
    have hinit : Thinkdeeper.processorInit (mergeConfig req) =
        Except.error "max() arg is an empty sequence" := by
      unfold Thinkdeeper.processorInit
      rw [if_pos (List.isEmpty_iff.mpr hsw)]
    have hdef : Thinkdeeper.thinkdeeper_decode messages (some req) oracle =
        match Thinkdeeper.processorInit (mergeConfig req) with
        | Except.error e => Except.error e
        | Except.ok cfg =>
          match Thinkdeeper.reasoning_effort cfg (messages.getD []) 0 oracle with
          | some s => Except.ok s
          | none => Except.error "loop did not exit within the modelled fuel" := rfl
    rw [hdef, hinit]

/-- C8 (witness): a backend failing on its very first call, reported by
`run` as the explicit failure pair; and a simulated-variant init failure
propagated by `thinkdeeper_decode`. -/
theorem backend_failure_never_silent_success_witness :
    ThinkdeeperPlugin.run pluginDefaultConfig tok3 0 failingOracle 5 "" =
      some ("Error in enhanced thinking process: " ++ "boom", 0) ∧
    Thinkdeeper.thinkdeeper_decode none (some reqEmptySwitches) switchOracle =
      Except.error "max() arg is an empty sequence" :=
  ⟨backend_failure_never_silent_success.1 pluginDefaultConfig tok3 0 failingOracle 5 ""
      1 2 "boom" rfl rfl,
   backend_failure_never_silent_success.2 none reqEmptySwitches switchOracle rfl⟩

/-- C9 (confirmed): the output of the simulated variant is independent of
the `messages` argument — the extracted prompt (line 49) is computed and
then never used in any transition or in the returned buffer.  This holds
at the `reasoning_effort` level for any two message lists and at the
`thinkdeeper_decode` level for any two optional message lists (covering
`None` and `[]`), with the same configuration and the same random draws. -/
theorem sim_output_independent_of_messages :
    (∀ (cfg : SimConfig) (m1 m2 : List Msg) (tc0 : Nat) (oracle : Nat → Draw),
      Thinkdeeper.reasoning_effort cfg m1 tc0 oracle =
        Thinkdeeper.reasoning_effort cfg m2 tc0 oracle) ∧
    (∀ (m1 m2 : Option (List Msg)) (rc : Option SimOptions) (oracle : Nat → Draw),
      Thinkdeeper.thinkdeeper_decode m1 rc oracle =
        Thinkdeeper.thinkdeeper_decode m2 rc oracle) :=
  ⟨fun _ _ _ _ _ => rfl, fun _ _ _ _ => rfl⟩

/-- C10 (confirmed): in every simulated run (over configurations whose end
marker string collides with no other buffer element, as the §3 marker
unambiguity invariant provides), the first buffer element is the start
marker followed by a newline and the prefill, the end marker is the last
element and occurs exactly once, and the loop exits with `seen_end_think`
already true — so the post-loop fallback append of lines 89-90 never
fires (the loop state passes through unchanged). -/
theorem sim_buffer_start_and_single_end_marker
    (cfg : SimConfig) (messages : List Msg) (tc0 : Nat) (oracle : Nat → Draw)
    (hne : cfg.thought_switch_tokens ≠ [])
    (hsw : cfg.end_think_token ∉ cfg.thought_switch_tokens)
    (hstep : cfg.end_think_token ∉ stepStrings)
    (hhead : cfg.start_think_token ++ "\n" ++ cfg.prefill ≠ cfg.end_think_token) :
    ∃ st, simLoop cfg oracle (simFuel cfg) 0
        ⟨[cfg.start_think_token ++ "\n" ++ cfg.prefill], 0, tc0, false⟩ = some st ∧
      Thinkdeeper.reasoning_effortState cfg messages tc0 oracle = some st ∧
      st.seen_end_think = true ∧
      st.current_text.head? = some (cfg.start_think_token ++ "\n" ++ cfg.prefill) ∧
      st.current_text.getLast? = some cfg.end_think_token ∧
      st.current_text.count cfg.end_think_token = 1 := by
  have hsome := simLoop_isSome_of_fuel cfg oracle (simFuel cfg) 0
      ⟨[cfg.start_think_token ++ "\n" ++ cfg.prefill], 0, tc0, false⟩ rfl (by
        show cfg.max_thinking_tokens - 0 + (cfg.max_thoughts - tc0)
            < cfg.max_thinking_tokens + cfg.max_thoughts + 1
        omega)
  obtain ⟨st, hst⟩ := Option.isSome_iff_exists.mp hsome
  obtain ⟨hseen, l, hshape, hmem⟩ := simLoop_exit cfg oracle _ _ _ _ hst
  refine ⟨st, hst, ?_, hseen, ?_, ?_, ?_⟩
  · have hdef : Thinkdeeper.reasoning_effortState cfg messages tc0 oracle =
        (simLoop cfg oracle (simFuel cfg) 0
          ⟨[cfg.start_think_token ++ "\n" ++ cfg.prefill], 0, tc0, false⟩).map
          (fun s => if s.seen_end_think then s
            else { s with current_text := s.current_text ++ [cfg.end_think_token] }) := rfl
    rw [hdef, hst, Option.map_some', if_pos hseen]
  · rw [hshape, head?_append_of_left_ne_nil _ _ (by simp)]
    rfl
  · rw [hshape, ← List.append_assoc, getLast?_append_singleton]
  · rw [hshape, List.count_append, List.count_append]
    have h1 : ([cfg.start_think_token ++ "\n" ++ cfg.prefill]).count cfg.end_think_token
        = 0 := by
      rw [List.count_eq_zero, List.mem_singleton]
      exact fun h => hhead h.symm
    have h2 : l.count cfg.end_think_token = 0 := by
      rw [List.count_eq_zero]
      intro hmem2
      rcases hmem _ hmem2 with ⟨j, hj⟩ | h
      · exact hsw (by rw [hj]; exact choice_mem hne j)
      · exact hstep h
    have h3 : ([cfg.end_think_token]).count cfg.end_think_token = 1 := by simp
    rw [h1, h2, h3]

/-- C10 (witness): the buffer-shape theorem applied to the default
configuration (whose marker strings satisfy all non-collision
hypotheses). -/
theorem sim_buffer_start_and_single_end_marker_witness :
    ∃ st, simLoop Thinkdeeper.DEFAULT_CONFIG stepEndOracle
        (simFuel Thinkdeeper.DEFAULT_CONFIG) 0
        ⟨[Thinkdeeper.DEFAULT_CONFIG.start_think_token ++ "\n" ++
            Thinkdeeper.DEFAULT_CONFIG.prefill], 0, 0, false⟩ = some st ∧
      Thinkdeeper.reasoning_effortState Thinkdeeper.DEFAULT_CONFIG [] 0 stepEndOracle =
        some st ∧
      st.seen_end_think = true ∧
      st.current_text.head? = some (Thinkdeeper.DEFAULT_CONFIG.start_think_token ++ "\n" ++
        Thinkdeeper.DEFAULT_CONFIG.prefill) ∧
      st.current_text.getLast? = some Thinkdeeper.DEFAULT_CONFIG.end_think_token ∧
      st.current_text.count Thinkdeeper.DEFAULT_CONFIG.end_think_token = 1 :=
  sim_buffer_start_and_single_end_marker Thinkdeeper.DEFAULT_CONFIG [] 0 stepEndOracle
    (by decide) (by decide) (by decide) (by decide)
